import Mathlib

/- Verification of the scrypted ecobee adapter (src/main.ts).

   Shallow embedding conventions:
   - JS numbers are modelled as rationals (ℚ); vendor integer temperatures as ℤ.
   - `Number.prototype.toFixed(k)` is modelled as rounding to k decimal places.
   - JS strings are modelled as Lean `String`; where substring scanning matters
     (`String.prototype.includes`) the status text is modelled as `List Char`.
   - `undefined`/`NaN` arithmetic of the retry counter is modelled explicitly.
   - Exceptions are modelled with `Except String`; mutation of controller state
     is explicit state passing mirroring the statement order of the source. -/

namespace Ecobee

/-- `API_RETRY` constant from main.ts line 5. -/
def API_RETRY : Int := 2

/-- JS `x.toFixed(2)` modelled as rounding to 2 decimal places over ℚ. -/
def toFixed2 (x : ℚ) : ℚ := (round (x * 100) : ℤ) / 100

/-- JS `x.toFixed(0)` modelled as rounding to the nearest integer. -/
def toFixed0 (x : ℚ) : ℤ := round x

/-- `ecobeeIntToCelsius`: raw tenths-of-°F vendor integer to °C,
    rounded to 2 decimal places (main.ts lines 8-14). -/
def ecobeeIntToCelsius (intV : ℤ) : ℚ :=
  let f : ℚ := (intV : ℚ) / 10
  let c : ℚ := (5 / 9) * (f - 32)
  toFixed2 c

/-- `celsiusToEcobeeInt`: °C to raw tenths-of-°F vendor integer
    (main.ts lines 17-21); this is the numeric value of the
    decimal string `(f*10).toFixed(0)` returned by the source. -/
def celsiusToEcobeeInt (c : ℚ) : ℤ :=
  let f : ℚ := c * 1.8 + 32
  toFixed0 (f * 10)

/-- The decimal string form actually returned by the source. -/
def celsiusToEcobeeIntStr (c : ℚ) : String := toString (celsiusToEcobeeInt c)

/-- Normalized thermostat modes used by the adapter. -/
inductive ThermostatMode
  | Cool
  | Heat
  | HeatCool
  | Off
deriving DecidableEq, Repr

/-- `ecobeeToThermostatMode` (main.ts lines 23-35): switch over the vendor
    mode string, defaulting to Off. -/
def ecobeeToThermostatMode (mode : String) : ThermostatMode :=
  if mode = "cool" then .Cool
  else if mode = "heat" then .Heat
  else if mode = "auto" then .HeatCool
  else .Off

/-- `thermostatModeToEcobee` (main.ts lines 37-49). -/
def thermostatModeToEcobee (mode : ThermostatMode) : String :=
  match mode with
  | .Cool => "cool"
  | .Heat => "heat"
  | .HeatCool => "auto"
  | .Off => "off"

/-- Normalized humidity modes used by the adapter. -/
inductive HumidityMode
  | Auto
  | Humidify
  | Off
deriving DecidableEq, Repr

/-- `humModeFromEcobee` (main.ts lines 51-61). -/
def humModeFromEcobee (mode : String) : HumidityMode :=
  if mode = "auto" then .Auto
  else if mode = "manual" then .Humidify
  else .Off

/-- Normalized air-quality buckets. -/
inductive AirQuality
  | Excellent
  | Good
  | Fair
  | Poor
  | Inferior
  | Unknown
deriving DecidableEq, Repr

/-- `setAirQualityFromAQScore` (main.ts lines 368-379): the bucket assigned
    to the vendor 0-500 air-quality score. -/
def setAirQualityFromAQScore (aqScore : ℚ) : AirQuality :=
  if aqScore < 51 then .Excellent
  else if aqScore < 101 then .Good
  else if aqScore < 151 then .Fair
  else if aqScore < 201 then .Poor
  else if aqScore < 301 then .Poor
  else if aqScore < 501 then .Inferior
  else .Unknown

/-- The temperature round trip is in fact exact: converting a raw vendor
    integer to °C (2-decimal rounding) and back recovers the integer. -/
theorem celsius_roundtrip_exact (t : ℤ) :
    celsiusToEcobeeInt (ecobeeIntToCelsius t) = t := by
  have hr := abs_sub_round ((5 / 9 : ℚ) * ((t : ℚ) / 10 - 32) * 100)
  obtain ⟨hr1, hr2⟩ := abs_le.mp hr
  simp only [celsiusToEcobeeInt, ecobeeIntToCelsius, toFixed2, toFixed0]
  set r : ℤ := round ((5 / 9 : ℚ) * ((t : ℚ) / 10 - 32) * 100) with hrdef
  have key : (((r : ℚ) / 100) * 1.8 + 32) * 10
      = (9 : ℚ) / 50 * ((r : ℚ) - (5 / 9 : ℚ) * ((t : ℚ) / 10 - 32) * 100) + (t : ℚ) := by
    ring
  rw [key, round_add_int]
  have hz : round ((9 : ℚ) / 50 * ((r : ℚ) - (5 / 9 : ℚ) * ((t : ℚ) / 10 - 32) * 100)) = 0 := by
    rw [round_eq_zero_iff]
    constructor
    · nlinarith
    · nlinarith
  rw [hz, zero_add]

/-- C5: for every raw vendor integer temperature t (tenths of a °F),
    `celsiusToEcobeeInt (ecobeeIntToCelsius t)` is within 1 unit of t. -/
theorem celsius_ecobee_roundtrip_within_one (t : ℤ) :
    |celsiusToEcobeeInt (ecobeeIntToCelsius t) - t| ≤ 1 := by
  rw [celsius_roundtrip_exact]
  simp

/-- C6: `ecobeeToThermostatMode` is total with cool↦Cool, heat↦Heat,
    auto↦HeatCool and every other string (including "auxHeatOnly") ↦ Off;
    `thermostatModeToEcobee` maps HeatCool to "auto"; and the composition
    is the identity on {"cool", "heat", "auto"}. -/
theorem mode_mapping_total_and_inverse :
    ecobeeToThermostatMode "cool" = .Cool ∧
    ecobeeToThermostatMode "heat" = .Heat ∧
    ecobeeToThermostatMode "auto" = .HeatCool ∧
    ecobeeToThermostatMode "auxHeatOnly" = .Off ∧
    (∀ s : String, s ≠ "cool" → s ≠ "heat" → s ≠ "auto" →
      ecobeeToThermostatMode s = .Off) ∧
    thermostatModeToEcobee .HeatCool = "auto" ∧
    (∀ s : String, s = "cool" ∨ s = "heat" ∨ s = "auto" →
      thermostatModeToEcobee (ecobeeToThermostatMode s) = s) := by
  refine ⟨rfl, rfl, rfl, by decide, ?_, rfl, ?_⟩
  · intro s h1 h2 h3
    simp [ecobeeToThermostatMode, h1, h2, h3]
  · rintro s (rfl | rfl | rfl) <;> rfl

/-- Witness for C6 at concrete inputs. -/
theorem mode_mapping_witness :
    ecobeeToThermostatMode "emergency" = ThermostatMode.Off ∧
    thermostatModeToEcobee (ecobeeToThermostatMode "auto") = "auto" :=
  ⟨mode_mapping_total_and_inverse.2.2.2.2.1 "emergency"
      (by decide) (by decide) (by decide),
   mode_mapping_total_and_inverse.2.2.2.2.2.2 "auto" (Or.inr (Or.inr rfl))⟩

/-- C7: air-quality bucketing with inclusive-low/exclusive-high boundaries,
    plus the boundary values 50, 100, 101, 500, 501. -/
theorem airQuality_bucketing (s : ℚ) :
    (s < 51 → setAirQualityFromAQScore s = .Excellent) ∧
    (51 ≤ s → s < 101 → setAirQualityFromAQScore s = .Good) ∧
    (101 ≤ s → s < 151 → setAirQualityFromAQScore s = .Fair) ∧
    (151 ≤ s → s < 201 → setAirQualityFromAQScore s = .Poor) ∧
    (201 ≤ s → s < 301 → setAirQualityFromAQScore s = .Poor) ∧
    (301 ≤ s → s < 501 → setAirQualityFromAQScore s = .Inferior) ∧
    (501 ≤ s → setAirQualityFromAQScore s = .Unknown) ∧
    setAirQualityFromAQScore 50 = .Excellent ∧
    setAirQualityFromAQScore 100 = .Good ∧
    setAirQualityFromAQScore 101 = .Fair ∧
    setAirQualityFromAQScore 500 = .Inferior ∧
    setAirQualityFromAQScore 501 = .Unknown := by
  refine ⟨?_, ?_, ?_, ?_, ?_, ?_, ?_, by decide, by decide, by decide, by decide, by decide⟩
  · intro h
    simp only [setAirQualityFromAQScore]
    rw [if_pos h]
  · intro h1 h2
    simp only [setAirQualityFromAQScore]
    rw [if_neg (by linarith), if_pos h2]
  · intro h1 h2
    simp only [setAirQualityFromAQScore]
    rw [if_neg (by linarith), if_neg (by linarith), if_pos h2]
  · intro h1 h2
    simp only [setAirQualityFromAQScore]
    rw [if_neg (by linarith), if_neg (by linarith), if_neg (by linarith), if_pos h2]
  · intro h1 h2
    simp only [setAirQualityFromAQScore]
    rw [if_neg (by linarith), if_neg (by linarith), if_neg (by linarith),
      if_neg (by linarith), if_pos h2]
  · intro h1 h2
    simp only [setAirQualityFromAQScore]
    rw [if_neg (by linarith), if_neg (by linarith), if_neg (by linarith),
      if_neg (by linarith), if_neg (by linarith), if_pos h2]
  · intro h
    simp only [setAirQualityFromAQScore]
    rw [if_neg (by linarith), if_neg (by linarith), if_neg (by linarith),
      if_neg (by linarith), if_neg (by linarith), if_neg (by linarith)]

/-- Witness for C7 at the concrete score 50. -/
theorem airQuality_bucketing_witness :
    setAirQualityFromAQScore 50 = AirQuality.Excellent :=
  (airQuality_bucketing 50).1 (by norm_num)

/-- The `listItems` array of `_updateRevisionList` (main.ts line 159). -/
def revisionListItems : List String :=
  ["tId", "tName", "connected", "thermostat", "alerts", "runtime", "interval"]

/-- `_updateRevisionList` (main.ts lines 158-174): stores the freshly split
    revision list and reports change.  `none` models a never-assigned
    `this.revisionList`; the loop runs `i = 3` to `listItems.length - 1` and
    compares with JS `!==` (out-of-range indexing yields `undefined`, modelled
    by `List.get?`). -/
def updateRevisionList (oldList : Option (List String)) (newList : List String) :
    List String × Bool :=
  match oldList with
  | none => (newList, true)
  | some old =>
    (newList,
      ((List.range revisionListItems.length).drop 3).any
        fun i => newList.get? i != old.get? i)

/-- C4: the revision comparison signals change exactly when no fingerprint was
    stored before, or the new fingerprint differs from the stored one at some
    index in 3..6; differing only at indices 0..2 signals no change. -/
theorem revision_change_iff (newList : List String) :
    (updateRevisionList none newList).2 = true ∧
    (∀ old : List String,
      (updateRevisionList (some old) newList).2 = true ↔
        ∃ i, i ∈ [3, 4, 5, 6] ∧ newList.get? i ≠ old.get? i) := by
  refine ⟨rfl, fun old => ?_⟩
  have hrange : (List.range revisionListItems.length).drop 3 = [3, 4, 5, 6] := rfl
  simp only [updateRevisionList, hrange, List.any_eq_true, bne_iff_ne]

/-- JS `String.prototype.toLowerCase` on the character-list model. -/
def jsToLower (s : List Char) : List Char := s.map Char.toLower

/-- JS `String.prototype.includes`: substring containment. -/
def jsIncludes (s pat : List Char) : Bool := decide (pat <:+: s)

/-- The characteristics `_updateEquipmentStatus` derives from the vendor
    equipment-status string. -/
structure EquipmentEffects where
  activeMode : ThermostatMode
  fanOn : Bool
  humidifierActiveMode : HumidityMode
deriving DecidableEq, Repr

/-- `_updateEquipmentStatus` (main.ts lines 123-153): lowercases the status
    text, then derives active heat/cool mode, fan state, and humidifier
    active mode by substring checks. -/
def updateEquipmentStatus (equipmentStatus : List Char) : EquipmentEffects :=
  let s := jsToLower equipmentStatus
  { activeMode :=
      if jsIncludes s ("heat".toList) then .Heat
      else if jsIncludes s ("cool".toList) then .Cool
      else .Off,
    fanOn := jsIncludes s ("fan".toList),
    humidifierActiveMode :=
      if jsIncludes s ("humidifier".toList) then .Humidify else .Off }

/-- C10: an equipment status containing "dehumidifier" sets the humidifier
    active mode to Humidify, because "dehumidifier" contains the substring
    "humidifier" used by the check. -/
theorem dehumidifier_sets_humidify (status : List Char)
    (h : jsIncludes status ("dehumidifier".toList) = true) :
    (updateEquipmentStatus status).humidifierActiveMode = HumidityMode.Humidify := by
  have hinf : ("dehumidifier".toList) <:+: status := of_decide_eq_true h
  obtain ⟨u, v, huv⟩ := hinf
  have hfix : List.map Char.toLower ("dehumidifier".toList)
      = 'd' :: 'e' :: ("humidifier".toList) := by decide
  have hlow : ("humidifier".toList) <:+: jsToLower status := by
    refine ⟨jsToLower u ++ ['d', 'e'], jsToLower v, ?_⟩
    rw [← huv]
    simp [jsToLower, List.map_append, hfix]
  have hb : jsIncludes (jsToLower status) ("humidifier".toList) = true :=
    decide_eq_true hlow
  simp only [updateEquipmentStatus, hb, if_true]

/-- Witness for C10 at the concrete status "fan,dehumidifier". -/
theorem dehumidifier_sets_humidify_witness :
    (updateEquipmentStatus ("fan,dehumidifier".toList)).humidifierActiveMode
      = HumidityMode.Humidify :=
  dehumidifier_sets_humidify ("fan,dehumidifier".toList) (by decide)

/-- The normalized interface tags used by discovery. -/
inductive SIface
  | Thermometer
  | HumiditySensor
  | Refresh
  | TemperatureSetting
  | OnOff
  | HumiditySetting
  | AirQualitySensor
  | VOCSensor
  | CO2Sensor
deriving DecidableEq, Repr

/-- Device type reported to the registry. -/
inductive SDeviceType
  | Thermostat
  | Sensor
deriving DecidableEq, Repr

/-- The vendor payload fields `discoverDevices` consults for one device:
    `settings.hasHumidifier` and the runtime air-quality fields (a missing
    field is `none`, matching JS `undefined`). -/
structure ApiDeviceModel where
  hasHumidifier : Bool
  actualAQScore : Option ℚ
  actualVOC : Option ℚ
  actualCO2 : Option ℚ
deriving DecidableEq, Repr

/-- JS `x >= 0` on a possibly-missing runtime field: `undefined >= 0` is false. -/
def jsGeZero : Option ℚ → Bool
  | none => false
  | some v => decide (0 ≤ v)

/-- `storage.getItem("sensors_only") === "true"` (main.ts line 566). -/
def sensorsOnlyFlag (stored : Option String) : Bool := stored == some "true"

/-- The per-device part of `discoverDevices` (main.ts lines 554-598): device
    type and interface list derived from the sensors-only setting and the
    vendor payload.  Mirrors the push order of the source. -/
def discoverDeviceRecord (sensorsOnlyStored : Option String) (apiDevice : ApiDeviceModel) :
    SDeviceType × List SIface :=
  let interfaces : List SIface := [.Thermometer, .HumiditySensor, .Refresh]
  let p : SDeviceType × List SIface :=
    if sensorsOnlyFlag sensorsOnlyStored then
      (SDeviceType.Sensor, interfaces)
    else
      (SDeviceType.Thermostat,
        interfaces ++ [.TemperatureSetting, .OnOff] ++
          (if apiDevice.hasHumidifier then [.HumiditySetting] else []))
  let interfaces := p.2 ++ (if jsGeZero apiDevice.actualAQScore then [.AirQualitySensor] else [])
  let interfaces := interfaces ++ (if jsGeZero apiDevice.actualVOC then [.VOCSensor] else [])
  let interfaces := interfaces ++ (if jsGeZero apiDevice.actualCO2 then [.CO2Sensor] else [])
  (p.1, interfaces)

/-- C9: discovery always includes thermometer, humidity sensor and refresh;
    with sensors_only = "true" the type is Sensor and the control interfaces
    (temperature-setting, on/off, humidity-setting) are omitted even with a
    humidifier; otherwise the type is Thermostat, temperature-setting and
    on/off are included and humidity-setting tracks the humidifier flag; the
    air-quality, VOC and CO2 interfaces are present exactly when the
    corresponding runtime field is present and non-negative. -/
theorem discovery_interfaces (stored : Option String) (apiDevice : ApiDeviceModel) :
    SIface.Thermometer ∈ (discoverDeviceRecord stored apiDevice).2 ∧
    SIface.HumiditySensor ∈ (discoverDeviceRecord stored apiDevice).2 ∧
    SIface.Refresh ∈ (discoverDeviceRecord stored apiDevice).2 ∧
    (sensorsOnlyFlag stored = true →
      (discoverDeviceRecord stored apiDevice).1 = SDeviceType.Sensor ∧
      SIface.TemperatureSetting ∉ (discoverDeviceRecord stored apiDevice).2 ∧
      SIface.OnOff ∉ (discoverDeviceRecord stored apiDevice).2 ∧
      SIface.HumiditySetting ∉ (discoverDeviceRecord stored apiDevice).2) ∧
    (sensorsOnlyFlag stored = false →
      (discoverDeviceRecord stored apiDevice).1 = SDeviceType.Thermostat ∧
      SIface.TemperatureSetting ∈ (discoverDeviceRecord stored apiDevice).2 ∧
      SIface.OnOff ∈ (discoverDeviceRecord stored apiDevice).2 ∧
      (SIface.HumiditySetting ∈ (discoverDeviceRecord stored apiDevice).2 ↔
        apiDevice.hasHumidifier = true)) ∧
    (SIface.AirQualitySensor ∈ (discoverDeviceRecord stored apiDevice).2 ↔
      jsGeZero apiDevice.actualAQScore = true) ∧
    (SIface.VOCSensor ∈ (discoverDeviceRecord stored apiDevice).2 ↔
      jsGeZero apiDevice.actualVOC = true) ∧
    (SIface.CO2Sensor ∈ (discoverDeviceRecord stored apiDevice).2 ↔
      jsGeZero apiDevice.actualCO2 = true) := by
  obtain ⟨hh, aq, voc, co2⟩ := apiDevice
  cases hso : sensorsOnlyFlag stored <;>
    cases hh <;>
    cases haq : jsGeZero aq <;>
    cases hvoc : jsGeZero voc <;>
    cases hco2 : jsGeZero co2 <;>
    simp [discoverDeviceRecord, hso, haq, hvoc, hco2]

/-- Witness for C9: sensors_only = "true" with a humidifier present yields a
    Sensor without the temperature-setting interface. -/
theorem discovery_interfaces_witness :
    (discoverDeviceRecord (some "true") ⟨true, some 10, none, none⟩).1
        = SDeviceType.Sensor ∧
    SIface.TemperatureSetting ∉
      (discoverDeviceRecord (some "true") ⟨true, some 10, none, none⟩).2 := by
  have h := (discovery_interfaces (some "true") ⟨true, some 10, none, none⟩).2.2.2.1
    (by decide)
  exact ⟨h.1, h.2.1⟩

/-- Result of one token exchange: the fields of the vendor response used by
    the source. -/
structure TokenData where
  access_token : String
  refresh_token : String
deriving DecidableEq, Repr

/-- The controller state the token code touches: the in-memory access token
    and the persisted storage entries. -/
structure CtrlState where
  access_token : Option String
  refresh_token_stored : Option String
  ecobee_code_stored : Option String
  client_id_stored : Option String
deriving DecidableEq, Repr

/-- The query parameters of a token exchange request. -/
structure TokenRequest where
  grant_type : String
  credential : Option String
  client_id : Option String
deriving DecidableEq, Repr

/-- Parameters built by `getToken` (main.ts lines 471-476): grant type
    "ecobeePin" with the stored authorization code. -/
def getTokenRequest (s : CtrlState) : TokenRequest :=
  ⟨"ecobeePin", s.ecobee_code_stored, s.client_id_stored⟩

/-- Parameters built by `refreshToken` (main.ts lines 489-494): grant type
    "refresh_token" with the stored refresh token. -/
def refreshTokenRequest (s : CtrlState) : TokenRequest :=
  ⟨"refresh_token", s.refresh_token_stored, s.client_id_stored⟩

/-- `getToken` (main.ts lines 468-483).  `net` is the outcome of the awaited
    POST; a thrown error leaves the function before either assignment, so the
    returned state is the state at the throw.  On success the in-memory access
    token is assigned, then the refresh token is persisted. -/
def getToken (net : TokenRequest → Except String TokenData) (s : CtrlState) :
    CtrlState × Option String :=
  match net (getTokenRequest s) with
  | .error e => (s, some e)
  | .ok tokenData =>
    let s := { s with access_token := some tokenData.access_token }
    let s := { s with refresh_token_stored := some tokenData.refresh_token }
    (s, none)

/-- `refreshToken` (main.ts lines 486-501), structurally identical to
    `getToken` apart from the request parameters. -/
def refreshToken (net : TokenRequest → Except String TokenData) (s : CtrlState) :
    CtrlState × Option String :=
  match net (refreshTokenRequest s) with
  | .error e => (s, some e)
  | .ok tokenData =>
    let s := { s with access_token := some tokenData.access_token }
    let s := { s with refresh_token_stored := some tokenData.refresh_token }
    (s, none)

/-- C8: a failed exchange leaves both the in-memory access token and the
    persisted refresh token unchanged and propagates the error; a successful
    exchange replaces both. -/
theorem token_exchange_atomic (s : CtrlState)
    (net : TokenRequest → Except String TokenData) (e : String) (td : TokenData) :
    (net (getTokenRequest s) = .error e → getToken net s = (s, some e)) ∧
    (net (refreshTokenRequest s) = .error e → refreshToken net s = (s, some e)) ∧
    (net (getTokenRequest s) = .ok td →
      getToken net s =
        ({ s with
            access_token := some td.access_token,
            refresh_token_stored := some td.refresh_token }, none)) ∧
    (net (refreshTokenRequest s) = .ok td →
      refreshToken net s =
        ({ s with
            access_token := some td.access_token,
            refresh_token_stored := some td.refresh_token }, none)) := by
  refine ⟨?_, ?_, ?_, ?_⟩ <;> intro h <;> simp [getToken, refreshToken, h]

/-- Witness for C8: a failing exchange at a concrete state. -/
theorem token_exchange_atomic_witness :
    getToken (fun _ => Except.error "boom")
        ⟨some "oldAccess", some "oldRefresh", some "code", some "cid"⟩
      = (⟨some "oldAccess", some "oldRefresh", some "code", some "cid"⟩, some "boom") :=
  (token_exchange_atomic ⟨some "oldAccess", some "oldRefresh", some "code", some "cid"⟩
      (fun _ => Except.error "boom") "boom" ⟨"a", "r"⟩).1 rfl

/-- The values the `attempt` parameter of `req` ranges over in JS: it is
    `undefined` on every external call, and postfix `++` turns `undefined`
    into `NaN`. -/
inductive JSVal
  | undef
  | nan
  | int (n : ℤ)
deriving DecidableEq, Repr

/-- JS `ToNumber`, as applied by postfix `++`: the expression `attempt++`
    evaluates to `ToNumber(attempt)` (the old value), and that is what the
    recursive call in `req` receives. -/
def jsToNumber : JSVal → JSVal
  | .undef => .nan
  | v => v

/-- JS `a > b` for the retry-counter comparison: comparisons against
    `undefined` or `NaN` are false. -/
def jsGtInt (a : JSVal) (b : ℤ) : Bool :=
  match a with
  | .int n => decide (b < n)
  | _ => false

/-- Possible outcomes of a `req` run. -/
inductive ReqOutcome
  | success
  | requestFailed (method endpoint : String) (attempt : JSVal)
  | refreshFailed
  | outOfFuel
deriving DecidableEq, Repr

/-- `req` (main.ts lines 504-538).  `requestFails` says whether the underlying
    HTTP request errors (the claim's scenario has it erroring on each attempt);
    `refreshOk` whether the token refresh in the catch block succeeds (a failed
    refresh throws out of `req`).  The recursive call receives
    `jsToNumber attempt`, the value of the postfix expression `attempt++`.
    `fuel` bounds the recursion depth of the model only: the source has no such
    bound, so exhausting every fuel models non-termination. -/
def req (requestFails : Bool) (refreshOk : Bool) (method endpoint : String) :
    JSVal → Nat → ReqOutcome
  | _, 0 => .outOfFuel
  | attempt, Nat.succ fuel =>
    if jsGtInt attempt API_RETRY then
      .requestFailed method endpoint attempt
    else if requestFails then
      (if refreshOk then
        req requestFails refreshOk method endpoint (jsToNumber attempt) fuel
      else .refreshFailed)
    else .success

/-- On the NaN counter the recursion never ends. -/
theorem req_nan_out_of_fuel (method endpoint : String) (fuel : Nat) :
    req true true method endpoint .nan fuel = .outOfFuel := by
  induction fuel with
  | zero => rfl
  | succ n ih =>
    simp only [req, jsGtInt, jsToNumber]
    exact ih

/-- C1: with the underlying request erroring on each attempt and token refresh
    succeeding, `req` never raises its exhausted-retry error: the guard
    `attempt > API_RETRY` never fires (the initial `attempt` is `undefined`,
    and `attempt++` passes the old value, so the counter stays NaN), so the
    run is still recursing after any number of attempts. -/
theorem req_never_raises_request_failed (method endpoint : String) (fuel : Nat) :
    req true true method endpoint .undef fuel = .outOfFuel := by
  cases fuel with
  | zero => rfl
  | succ n =>
    simp only [req, jsGtInt, jsToNumber]
    exact req_nan_out_of_fuel method endpoint n

/-- Vendor response status for a POST command. -/
structure StatusResp where
  code : ℤ
deriving DecidableEq, Repr

/-- Observable effect of a successful command method run: how many `reload()`
    calls happened and whether a vendor failure was logged. -/
structure CmdEffect where
  reloads : Nat
  loggedFailure : Bool
deriving DecidableEq, Repr

/-- A `setTemperature` setpoint: JS distinguishes an array (pair) from a
    scalar via `Array.isArray`. -/
inductive Setpoint
  | single (v : ℚ)
  | pair (heat cool : ℚ)
deriving DecidableEq, Repr

/-- The `TemperatureCommand` fields the source reads. -/
structure TemperatureCommand where
  mode : Option ThermostatMode
  setpoint : Option Setpoint
deriving DecidableEq, Repr

/-- The `params` of the `setHold` function built by `setTemperature`. -/
structure SetHoldParams where
  holdType : String
  heatHoldTemp : String
  coolHoldTemp : String
deriving DecidableEq, Repr

/-- The request body built by `setTemperature` (besides the fixed selection):
    the optional `functions` hold and the optional `thermostat.settings.hvacMode`
    change. -/
structure SetTempPayload where
  holdFunction : Option SetHoldParams
  thermostatHvacMode : Option String
deriving DecidableEq, Repr

/-- Payload construction of `setTemperature` (main.ts lines 247-288). -/
def buildSetTemperaturePayload (command : TemperatureCommand) : SetTempPayload :=
  let holdFunction : Option SetHoldParams :=
    match command.setpoint with
    | some (.pair h c) =>
      some ⟨"nextTransition", celsiusToEcobeeIntStr h, celsiusToEcobeeIntStr c⟩
    | some (.single v) =>
      some ⟨"nextTransition", celsiusToEcobeeIntStr v, celsiusToEcobeeIntStr v⟩
    | none => none
  let hvac : Option String := command.mode.map thermostatModeToEcobee
  ⟨holdFunction, hvac⟩

/-- `setTemperature` (main.ts lines 243-300): builds the payload, awaits the
    POST (`reqF`, which may throw), then on status code 0 awaits `reload` and
    returns; on a non-zero code logs the failure and returns normally.  The
    method has no try/catch, so a thrown error escapes it. -/
def setTemperature (command : TemperatureCommand)
    (reqF : SetTempPayload → Except String StatusResp)
    (reload : Except String Unit) : Except String CmdEffect := do
  let payload := buildSetTemperaturePayload command
  let resp ← reqF payload
  if resp.code = 0 then
    let _ ← reload
    pure ⟨1, false⟩
  else
    pure ⟨0, true⟩

/-- The fixed `setHold` params of the fan commands (main.ts lines 310-322 and
    343-355). -/
structure FanHoldParams where
  coolHoldTemp : ℤ
  heatHoldTemp : ℤ
  holdType : String
  fan : String
  isTemperatureAbsolute : String
  isTemperatureRelative : String
deriving DecidableEq, Repr

/-- `turnOn` (main.ts lines 335-366): fixed hold with fan "on"; no try/catch. -/
def turnOn (reqF : FanHoldParams → Except String StatusResp)
    (reload : Except String Unit) : Except String CmdEffect := do
  let resp ← reqF ⟨900, 550, "nextTransition", "on", "false", "false"⟩
  if resp.code = 0 then
    let _ ← reload
    pure ⟨1, false⟩
  else
    pure ⟨0, true⟩

/-- `turnOff` (main.ts lines 302-333): fixed hold with fan "auto"; no try/catch. -/
def turnOff (reqF : FanHoldParams → Except String StatusResp)
    (reload : Except String Unit) : Except String CmdEffect := do
  let resp ← reqF ⟨900, 550, "nextTransition", "auto", "false", "false"⟩
  if resp.code = 0 then
    let _ ← reload
    pure ⟨1, false⟩
  else
    pure ⟨0, true⟩

/-- C2 counterexample: an error raised by the request machinery during
    `setTemperature` is not caught at the method boundary; it reaches the
    caller. -/
theorem command_error_escapes_cex :
    setTemperature ⟨none, some (.single 21)⟩
        (fun _ => Except.error "network error") (Except.ok ())
      = Except.error "network error" := rfl

/-- C2 amended: errors from the request machinery (the POST, or the `reload`
    it triggers) propagate out of the public command methods `setTemperature`,
    `turnOn` and `turnOff`; only a vendor-rejected command (non-zero status
    code) is handled without raising, by logging. -/
theorem command_error_propagation (e : String) (reload : Except String Unit)
    (command : TemperatureCommand) :
    setTemperature command (fun _ => Except.error e) reload = Except.error e ∧
    turnOn (fun _ => Except.error e) reload = Except.error e ∧
    turnOff (fun _ => Except.error e) reload = Except.error e ∧
    setTemperature command (fun _ => Except.ok ⟨0⟩) (Except.error e) = Except.error e ∧
    (∀ code : ℤ, code ≠ 0 →
      setTemperature command (fun _ => Except.ok ⟨code⟩) reload
        = Except.ok ⟨0, true⟩) := by
  refine ⟨rfl, rfl, rfl, rfl, ?_⟩
  intro code hcode
  simp [setTemperature, Bind.bind, Except.bind, Pure.pure, Except.pure, hcode]

/-- Witness for C2 at a concrete vendor-rejection code. -/
theorem command_error_propagation_witness :
    setTemperature ⟨none, none⟩ (fun _ => Except.ok ⟨3⟩) (Except.ok ())
      = Except.ok ⟨0, true⟩ :=
  (command_error_propagation "unused" (Except.ok ()) ⟨none, none⟩).2.2.2.2 3
    (by decide)

/-- C3: a pair setpoint yields heat/cool hold temps from its components, a
    scalar setpoint the same value for both, a present mode an hvacMode
    change; status code 0 triggers exactly one reload; a non-zero code is
    logged without raising and without reload. -/
theorem setTemperature_payload_and_effect :
    (∀ (m : Option ThermostatMode) (h c : ℚ),
      (buildSetTemperaturePayload ⟨m, some (.pair h c)⟩).holdFunction =
        some ⟨"nextTransition", celsiusToEcobeeIntStr h, celsiusToEcobeeIntStr c⟩) ∧
    (∀ (m : Option ThermostatMode) (v : ℚ),
      (buildSetTemperaturePayload ⟨m, some (.single v)⟩).holdFunction =
        some ⟨"nextTransition", celsiusToEcobeeIntStr v, celsiusToEcobeeIntStr v⟩) ∧
    (∀ (mo : ThermostatMode) (sp : Option Setpoint),
      (buildSetTemperaturePayload ⟨some mo, sp⟩).thermostatHvacMode =
        some (thermostatModeToEcobee mo)) ∧
    (∀ command : TemperatureCommand,
      setTemperature command (fun _ => Except.ok ⟨0⟩) (Except.ok ())
        = Except.ok ⟨1, false⟩) ∧
    (∀ (command : TemperatureCommand) (reload : Except String Unit) (code : ℤ),
      code ≠ 0 →
      setTemperature command (fun _ => Except.ok ⟨code⟩) reload
        = Except.ok ⟨0, true⟩) := by
  refine ⟨fun m h c => rfl, fun m v => rfl, fun mo sp => rfl, fun command => rfl, ?_⟩
  intro command reload code hcode
  simp [setTemperature, Bind.bind, Except.bind, Pure.pure, Except.pure, hcode]

/-- Witness for C3: the spec scenario `setpoint = 21.0`, vendor success, and a
    vendor-rejected run at code 5. -/
theorem setTemperature_payload_witness :
    (buildSetTemperaturePayload ⟨none, some (.single 21)⟩).holdFunction =
      some ⟨"nextTransition", celsiusToEcobeeIntStr 21, celsiusToEcobeeIntStr 21⟩ ∧
    setTemperature ⟨none, some (.single 21)⟩ (fun _ => Except.ok ⟨0⟩) (Except.ok ())
      = Except.ok ⟨1, false⟩ ∧
    setTemperature ⟨none, some (.single 21)⟩ (fun _ => Except.ok ⟨5⟩) (Except.ok ())
      = Except.ok ⟨0, true⟩ :=
  ⟨setTemperature_payload_and_effect.2.1 none 21,
   setTemperature_payload_and_effect.2.2.2.1 ⟨none, some (.single 21)⟩,
   setTemperature_payload_and_effect.2.2.2.2 ⟨none, some (.single 21)⟩
     (Except.ok ()) 5 (by decide)⟩

end Ecobee
